import Mathlib

/-!
Shallow embedding of the AEGIS platform backend (`src/backend/app`), a
FastAPI + SQLAlchemy application.  Each handler is translated into a pure
Lean function over an explicit store:

* the relational store is a record of lists of rows, one list per table,
  in insertion order; a mutating handler returns the store after its
  commit(s), and a handler that commits more than once returns the list of
  committed states;
* `HTTPException` outcomes become a `Resp` value carrying the `detail`
  string raised in the source;
* JWT-claim data (`current_user`) is a pair of strings, as produced by
  `get_current_user` in `app/core/deps.py`;
* id columns are declared `Column(UUID(as_uuid=True))` in the models, so a
  loaded row exposes a `uuid.UUID` value while the actor id from the token
  is a `str`; the `PyVal` type models how Python compares and prints these
  (see the comment at `get_grievance` in `app/api/grievances.py`, which
  notes that `submitter_id` must be cast to `str` before comparison);
* calendar dates are modelled as integers (day ordinals) with the usual
  order; only their ordering is ever used by the handlers.
-/

namespace Aegis

/-- Model of the Python runtime values that appear in the identity
comparisons of the handlers.  Rows loaded from the database carry
`uuid.UUID` ids (from `Column(UUID(as_uuid=True))`), nullable columns may
hold `None`, and the actor id taken from the JWT claims is a `str`. -/
inductive PyVal where
  | pstr (s : String)
  | puuid (s : String)
  | pnone
deriving DecidableEq, Repr

/-- Python `==` on these values: `uuid.UUID.__eq__` returns
`NotImplemented` on a `str` argument so the interpreter falls back to
identity, hence a UUID is never equal to a string, even when the string is
the canonical text of that UUID.  Two UUIDs are equal exactly when their
canonical texts are. -/
def pyEq : PyVal → PyVal → Bool
  | .pstr a, .pstr b => a == b
  | .puuid a, .puuid b => a == b
  | _, _ => false

/-- Python `str()` of these values: `str(None)` is the string `None`, and
`str` of a UUID is its canonical lowercase text. -/
def pyStr : PyVal → String
  | .pstr s => s
  | .puuid s => s
  | .pnone => "None"

/-- A nullable UUID column value as seen from Python after a row load. -/
def pyOfOptId : Option String → PyVal
  | some s => .puuid s
  | none => .pnone

/-- Model of the Python temporal values met in the deadline check of
`apply_to_opportunity`: the loaded `deadline` attribute of an
`Opportunity` row is a `datetime.datetime` (the model declares
`Column(DateTime)`), while `date.today()` is a plain `datetime.date`.
Only the type tag and the ordering of the payload matter here. -/
inductive PyTemporal where
  | pdatetime (t : Int)
  | pdate (t : Int)
deriving DecidableEq, Repr

/-- Python `<` on these values: `datetime.datetime` refuses comparison
with a plain `datetime.date` (and vice versa) and raises `TypeError`,
modelled as `none`; a same-type comparison orders normally. -/
def pyLt? : PyTemporal → PyTemporal → Option Bool
  | .pdatetime a, .pdatetime b => some (decide (a < b))
  | .pdate a, .pdate b => some (decide (a < b))
  | _, _ => none

/-- The authenticated actor: the `current_user` dict built by
`get_current_user` in `app/core/deps.py` from the validated JWT claims.
Both fields are strings (`sub` was written as `str(user.id)` at login). -/
structure Actor where
  id : String
  role : String
deriving DecidableEq, Repr

/-- Outcome of a handler: the success payload, or one of the
`HTTPException`s raised in the source (the string is the `detail`
argument).  `serverError` models an exception that no handler catches
(HTTP 500). -/
inductive Resp (α : Type) where
  | ok (val : α)
  | badRequest (detail : String)
  | forbidden (detail : String)
  | notFound (detail : String)
  | serverError
deriving DecidableEq, Repr

/-- Whether a handler outcome is a success. -/
def Resp.isOk {α : Type} : Resp α → Bool
  | .ok _ => true
  | _ => false

/-! ### Identity and credential service (`app/api/auth.py`) -/

/-- Python `str.endswith`, on the underlying character sequences. -/
def endswith (s suf : String) : Bool :=
  suf.data.isSuffixOf s.data

/-- From `app/api/auth.py`: check if email is from the students domain. -/
def is_valid_student_email (email : String) : Bool :=
  endswith email "@students.iitmandi.ac.in"

/-- From `app/api/auth.py`: check if email is from the staff domain. -/
def is_valid_staff_email (email : String) : Bool :=
  endswith email "@iitmandi.ac.in"

/-- From `app/api/auth.py`: STUDENT requires the students domain, every
other role string requires the staff domain. -/
def validate_email_for_role (email role : String) : Bool :=
  if role == "STUDENT" then is_valid_student_email email
  else is_valid_staff_email email

/-- The `UserRole` enum of `app/models/user.py`. -/
inductive UserRole where
  | STUDENT
  | FACULTY
  | AUTHORITY
  | ADMIN
deriving DecidableEq, Repr

/-- The `.value` of a `UserRole` member. -/
def UserRole.value : UserRole → String
  | .STUDENT => "STUDENT"
  | .FACULTY => "FACULTY"
  | .AUTHORITY => "AUTHORITY"
  | .ADMIN => "ADMIN"

/-- The `UserRole(s)` enum constructor: `some` member on a valid value,
`none` where Python raises `ValueError`. -/
def UserRole.fromValue? (s : String) : Option UserRole :=
  if s == "STUDENT" then some .STUDENT
  else if s == "FACULTY" then some .FACULTY
  else if s == "AUTHORITY" then some .AUTHORITY
  else if s == "ADMIN" then some .ADMIN
  else none

/-- A row of the `users` table (the fields the handlers consult). -/
structure AuthUser where
  id : String
  email : String
  password_hash : String
  role : UserRole
  is_active : Bool
deriving DecidableEq, Repr

/-- The `UserCreate` request body (`app/schemas/auth.py`): `role` is an
unconstrained string defaulting to STUDENT. -/
structure UserCreate where
  email : String
  password : String
  role : String
deriving DecidableEq, Repr

/-- The slice of the store the auth handlers touch. -/
structure AuthDB where
  users : List AuthUser
deriving DecidableEq, Repr

/-- The `register` handler of `app/api/auth.py` (body validation by
pydantic has already succeeded when the handler runs).  `uid` is the
database-generated id of the new row, `pwHash` the digest produced by the
opaque hashing service.  Order of checks as in the source: ADMIN
self-assignment, email domain for the role, existing email, then row
construction (where `UserRole(user_data.role)` raises on an invalid role
string, modelled as `serverError`). -/
def register (db : AuthDB) (d : UserCreate) (uid pwHash : String) :
    Resp AuthUser × AuthDB :=
  if d.role == "ADMIN" then
    (.forbidden "ADMIN role cannot be self-assigned. Contact an existing admin for role promotion.", db)
  else if !(validate_email_for_role d.email d.role) then
    (.badRequest (if d.role == "STUDENT" then
        "Students must use @students.iitmandi.ac.in email addresses"
      else
        "Faculty, Authority, and Admin must use @iitmandi.ac.in email addresses"), db)
  else if db.users.any (fun u => u.email == d.email) then
    (.badRequest "Email already registered", db)
  else
    match UserRole.fromValue? d.role with
    | none => (.serverError, db)
    | some r =>
      let u : AuthUser :=
        { id := uid, email := d.email, password_hash := pwHash,
          role := r, is_active := true }
      (.ok u, { db with users := db.users ++ [u] })

/-! ### Grievance workflow (`app/api/grievances.py`, `app/models/grievance.py`) -/

/-- The `GrievanceStatus` enum. -/
inductive GrievanceStatus where
  | SUBMITTED
  | UNDER_REVIEW
  | IN_PROGRESS
  | RESOLVED
deriving DecidableEq, Repr

/-- The `GrievanceStatus(s)` enum constructor (`none` models
`ValueError`). -/
def GrievanceStatus.fromValue? (s : String) : Option GrievanceStatus :=
  if s == "SUBMITTED" then some .SUBMITTED
  else if s == "UNDER_REVIEW" then some .UNDER_REVIEW
  else if s == "IN_PROGRESS" then some .IN_PROGRESS
  else if s == "RESOLVED" then some .RESOLVED
  else none

/-- The `GrievanceCategory` enum. -/
inductive GrievanceCategory where
  | INFRASTRUCTURE
  | ACADEMICS
  | HOSTEL
  | FOOD
  | OTHER
deriving DecidableEq, Repr

/-- The `GrievanceCategory(s)` enum constructor. -/
def GrievanceCategory.fromValue? (s : String) : Option GrievanceCategory :=
  if s == "INFRASTRUCTURE" then some .INFRASTRUCTURE
  else if s == "ACADEMICS" then some .ACADEMICS
  else if s == "HOSTEL" then some .HOSTEL
  else if s == "FOOD" then some .FOOD
  else if s == "OTHER" then some .OTHER
  else none

/-- The `Priority` enum. -/
inductive Priority where
  | LOW
  | MEDIUM
  | HIGH
  | URGENT
deriving DecidableEq, Repr

/-- The `Priority(s)` enum constructor. -/
def Priority.fromValue? (s : String) : Option Priority :=
  if s == "LOW" then some .LOW
  else if s == "MEDIUM" then some .MEDIUM
  else if s == "HIGH" then some .HIGH
  else if s == "URGENT" then some .URGENT
  else none

/-- A row of the `grievances` table. -/
structure Grievance where
  id : String
  submitter_id : Option String
  category : GrievanceCategory
  priority : Priority
  location : String
  title : String
  description : String
  status : GrievanceStatus
  is_anonymous : Bool
  photos : List String
  assigned_to : Option String
deriving DecidableEq, Repr

/-- A row of the `grievance_updates` table (its own database-generated id
is never consulted by handler logic and is omitted). -/
structure GrievanceUpdate where
  grievance_id : String
  updated_by : String
  status : GrievanceStatus
  remark : String
deriving DecidableEq, Repr

/-- The slice of the store the grievance handlers touch.  Both lists are
in insertion order, so the last matching element of `updates` is the most
recently appended update of a grievance. -/
structure GrievanceDB where
  grievances : List Grievance
  updates : List GrievanceUpdate
deriving DecidableEq, Repr

/-- The `GrievanceCreate` request body. -/
structure GrievanceCreate where
  title : String
  description : String
  category : String
  priority : String
  location : String
  is_anonymous : Bool
deriving DecidableEq, Repr

/-- The `GrievanceUpdateCreate` request body. -/
structure GrievanceUpdateCreate where
  status : String
  remark : String
deriving DecidableEq, Repr

/-- The `select(Grievance).where(Grievance.id == grievance_id)` +
`scalar_one_or_none()` lookup. -/
def findGrievance (db : GrievanceDB) (gid : String) : Option Grievance :=
  db.grievances.find? (fun g => g.id == gid)

/-- The update log of one grievance, oldest first. -/
def updatesFor (db : GrievanceDB) (gid : String) : List GrievanceUpdate :=
  db.updates.filter (fun u => u.grievance_id == gid)

/-- The `create_grievance` handler.  `gid` is the database-generated id of
the new row.  The handler calls `db.commit()` twice — once after adding
the grievance and once after adding the synthesized initial update — so it
returns the list of the two committed states (empty when validation fails
before any commit). -/
def create_grievance (db : GrievanceDB) (user : Actor) (d : GrievanceCreate)
    (gid : String) : Resp Grievance × List GrievanceDB :=
  match GrievanceCategory.fromValue? d.category, Priority.fromValue? d.priority with
  | some c, some p =>
    let g : Grievance :=
      { id := gid
        submitter_id := if d.is_anonymous then none else some user.id
        category := c
        priority := p
        location := d.location
        title := d.title
        description := d.description
        status := .SUBMITTED
        is_anonymous := d.is_anonymous
        photos := []
        assigned_to := none }
    let db1 : GrievanceDB := { db with grievances := db.grievances ++ [g] }
    let upd : GrievanceUpdate :=
      { grievance_id := gid, updated_by := user.id,
        status := .SUBMITTED, remark := "Grievance submitted" }
    let db2 : GrievanceDB := { db1 with updates := db1.updates ++ [upd] }
    (.ok g, [db1, db2])
  | _, _ => (.badRequest "Invalid category or priority", [])

/-- The `list_grievances` handler.  Optional status/category filters are
silently dropped on an invalid enum value (`except ValueError: pass`);
STUDENT and FACULTY actors are restricted to their own or anonymous
grievances (the `submitter_id == current_user` comparison happens in SQL,
where the bound string is coerced to a UUID, so it matches canonically and
a NULL submitter never matches).  Ordering by creation time is the store
order here; `skip`/`limit` are the query pagination parameters. -/
def list_grievances (db : GrievanceDB) (user : Actor)
    (statusFilter categoryFilter : Option String) (skip limit : Nat) :
    List Grievance :=
  let q := db.grievances
  let q : List Grievance := match statusFilter with
    | some s =>
      match GrievanceStatus.fromValue? s with
      | some st => q.filter (fun g => g.status == st)
      | none => q
    | none => q
  let q : List Grievance := match categoryFilter with
    | some s =>
      match GrievanceCategory.fromValue? s with
      | some c => q.filter (fun g => g.category == c)
      | none => q
    | none => q
  let q :=
    if user.role == "STUDENT" || user.role == "FACULTY" then
      q.filter (fun g =>
        (match g.submitter_id with
         | some s => s == user.id
         | none => false) || g.is_anonymous)
    else q
  (q.drop skip).take limit

/-- The `get_grievance` handler.  Only a STUDENT actor is subjected to the
ownership-or-anonymity check; the comparison casts the loaded UUID (or
`None`) to `str` as in the source. -/
def get_grievance (db : GrievanceDB) (user : Actor) (gid : String) :
    Resp Grievance :=
  match findGrievance db gid with
  | none => .notFound "Grievance not found"
  | some g =>
    if user.role == "STUDENT" then
      let is_owner := pyStr (pyOfOptId g.submitter_id) == user.id
      if !is_owner && !g.is_anonymous then
        .forbidden "Not authorized to view this grievance"
      else .ok g
    else .ok g

/-- The `add_grievance_update` handler: AUTHORITY/ADMIN only; appends one
update row, overwrites the denormalized status, auto-assigns the actor
when the grievance has no assignee; one commit at the end.  The invalid
status detail is the static part of the f-string raised in the source. -/
def add_grievance_update (db : GrievanceDB) (user : Actor) (gid : String)
    (d : GrievanceUpdateCreate) : Resp Grievance × GrievanceDB :=
  if !(user.role == "AUTHORITY" || user.role == "ADMIN") then
    (.forbidden "Only faculty, authority, or admin can update grievances", db)
  else
    match findGrievance db gid with
    | none => (.notFound "Grievance not found", db)
    | some g =>
      match GrievanceStatus.fromValue? d.status with
      | none => (.badRequest "Invalid status", db)
      | some s =>
        let upd : GrievanceUpdate :=
          { grievance_id := g.id, updated_by := user.id,
            status := s, remark := d.remark }
        let g2 : Grievance :=
          { g with status := s
                   assigned_to := match g.assigned_to with
                     | none => some user.id
                     | some x => some x }
        let db2 : GrievanceDB :=
          { db with
              grievances := db.grievances.map
                (fun x => if x.id == g.id then g2 else x)
              updates := db.updates ++ [upd] }
        (.ok g2, db2)

namespace Grievances

/-- The `upload_grievance_photo` handler of `app/api/grievances.py` (the
stub at `POST /grievances/.../photos`): checks existence and ownership,
then returns success without touching storage.  The ownership test is
`str(grievance.submitter_id) != current_user["id"]`. -/
def upload_grievance_photo (db : GrievanceDB) (user : Actor) (gid : String)
    (filename : String) : Resp String :=
  match findGrievance db gid with
  | none => .notFound "Grievance not found"
  | some g =>
    if pyStr (pyOfOptId g.submitter_id) != user.id then
      .forbidden "Not authorized to upload photos for this grievance"
    else .ok filename

end Grievances

/-! ### File storage (`app/core/storage.py`, `app/api/files.py`) -/

/-- The extension allow-list of `app/core/storage.py`. -/
def ALLOWED_EXTENSIONS : List String :=
  [".pdf", ".doc", ".docx", ".jpg", ".jpeg", ".png", ".gif", ".mp4", ".zip"]

/-- The default size ceiling (10 MB). -/
def MAX_FILE_SIZE : Nat := 10485760

/-- From `app/core/storage.py`: check if file size is within limits. -/
def validate_file_size (n : Nat) : Bool :=
  n ≤ MAX_FILE_SIZE

/-- Split a character sequence on `/`. -/
def splitSlash : List Char → List Char → List String
  | [], acc => [String.mk acc.reverse]
  | c :: rest, acc =>
    if c == '/' then String.mk acc.reverse :: splitSlash rest []
    else splitSlash rest (c :: acc)

/-- Model of `pathlib.PurePath.suffix` on one path component: the part
from the last dot on, empty when the last dot is the first or the last
character of the name. -/
def path_suffix_of_name (name : String) : String :=
  let cs := name.data
  match ((cs.zip (List.range cs.length)).filter (fun p => p.1 == '.')).getLast? with
  | some p =>
    if 0 < p.2 && p.2 < cs.length - 1 then String.mk (cs.drop p.2) else ""
  | none => ""

/-- Model of `Path(filename).suffix`: the suffix of the last component. -/
def path_suffix (filename : String) : String :=
  path_suffix_of_name ((splitSlash filename.data []).getLastD filename)

/-- Python `str.lower` restricted to ASCII, which is all the allow-list
comparison can meet. -/
def lowerAscii (s : String) : String :=
  String.mk (s.data.map (fun c =>
    if 'A' ≤ c && c ≤ 'Z' then Char.ofNat (c.toNat + 32) else c))

/-- From `app/core/storage.py`: check if the file extension is allowed
(lower-cased suffix against the allow-list). -/
def is_allowed_file (filename : String) : Bool :=
  ALLOWED_EXTENSIONS.contains (lowerAscii (path_suffix filename))

namespace Files

/-- The `upload_grievance_photo` handler of `app/api/files.py` (`POST
/files/grievances/.../photos`): extension allow-list, existence,
ownership (`str(grievance.submitter_id) != current_user["id"]`), size
ceiling, then the photo reference is appended to the grievance row.
`size` is the byte length of the uploaded content and `newName` the
random `uuid4()` stem generated for the stored blob. -/
def upload_grievance_photo (db : GrievanceDB) (user : Actor) (gid : String)
    (filename : String) (size : Nat) (newName : String) :
    Resp String × GrievanceDB :=
  if !is_allowed_file filename then
    (.badRequest "File type not allowed", db)
  else
    match findGrievance db gid with
    | none => (.notFound "Grievance not found", db)
    | some g =>
      if pyStr (pyOfOptId g.submitter_id) != user.id then
        (.forbidden "Not authorized to upload photos for this grievance", db)
      else if !validate_file_size size then
        (.badRequest "File too large. Max size: 10MB", db)
      else
        let url := "/uploads/grievances/" ++ newName ++ path_suffix filename
        let g2 : Grievance := { g with photos := g.photos ++ [url] }
        let gs := db.grievances.map (fun x => if x.id == g.id then g2 else x)
        (.ok url, { db with grievances := gs })

end Files

/-- The segments of the configured upload root (`UPLOAD_DIR` in
`app/core/storage.py`, an absolute directory path). -/
def UPLOAD_DIR_SEGS : List String :=
  ["home", "apsingh", "Documents", "krkhc_2", "backend", "uploads"]

/-- Model of `pathlib` parsing of a path string into components: split on
`/`, drop empty and `.` components (`..` components are kept — `PurePath`
never resolves them). -/
def parseSegs (s : String) : List String :=
  (splitSlash s.data []).filter (fun seg => seg != "" && seg != ".")

/-- Whether the path string is absolute. -/
def isAbsPath (s : String) : Bool :=
  match s.data with
  | c :: _ => c == '/'
  | [] => false

/-- Decision taken by the `serve_file` handler of `app/api/files.py` for
`GET /files/uploads/...path...`. -/
inductive ServeResult where
  | denied
  | served (segs : List String)
deriving DecidableEq, Repr

/-- The `serve_file` handler up to its security decision:
`full_path = UPLOAD_DIR / file_path` (an absolute request path replaces
the base, per `pathlib`), then `full_path.relative_to(UPLOAD_DIR)` — a
purely lexical component-prefix test, which raises `ValueError` (mapped to
Forbidden) exactly when the base components are not a prefix of the full
path's components.  On success the handler goes on to serve the blob at
`full_path` (404 when the OS finds no file there). -/
def serve_file (file_path : String) : ServeResult :=
  let full :=
    if isAbsPath file_path then parseSegs file_path
    else UPLOAD_DIR_SEGS ++ parseSegs file_path
  if UPLOAD_DIR_SEGS.isPrefixOf full then .served full else .denied

/-- Operating-system resolution of `..` components against an absolute
path, as performed when the served path is opened (a `..` at the root
stays at the root). -/
def resolveSegs (segs : List String) : List String :=
  segs.foldl (fun acc s => if s == ".." then acc.dropLast else acc ++ [s]) []

/-- Whether the location a path actually denotes lies outside the upload
root subtree. -/
def escapesUploadRoot (segs : List String) : Bool :=
  !(UPLOAD_DIR_SEGS.isPrefixOf (resolveSegs segs))

/-! ### Opportunity workflow (`app/api/opportunities.py`, `app/models/opportunity.py`) -/

/-- The `OpportunityType` enum. -/
inductive OpportunityType where
  | RESEARCH
  | INTERNSHIP
deriving DecidableEq, Repr

/-- The `ApplicationStatus` enum. -/
inductive ApplicationStatus where
  | SUBMITTED
  | UNDER_REVIEW
  | SHORTLISTED
  | ACCEPTED
  | REJECTED
deriving DecidableEq, Repr

/-- A row of the `opportunities` table. -/
structure Opportunity where
  id : String
  faculty_id : String
  title : String
  description : String
  type : OpportunityType
  skills : List String
  duration : String
  stipend : Option String
  deadline : Int
  is_open : Bool
deriving DecidableEq, Repr

/-- A row of the `applications` table. -/
structure Application where
  id : String
  opportunity_id : String
  student_id : String
  status : ApplicationStatus
  resume_path : Option String
  cover_letter : String
deriving DecidableEq, Repr

/-- The slice of the store the opportunity handlers touch. -/
structure OppDB where
  opportunities : List Opportunity
  applications : List Application
deriving DecidableEq, Repr

/-- The `select(Opportunity).where(Opportunity.id == ...)` lookup. -/
def findOpportunity (db : OppDB) (oid : String) : Option Opportunity :=
  db.opportunities.find? (fun o => o.id == oid)

/-- The `close_opportunity` handler.  The source guard is
`opportunity.faculty_id != current_user["id"] and current_user["role"] !=
UserRole.ADMIN.value`, where `faculty_id` is the loaded `uuid.UUID` and
the actor id is the token string — compared with Python `!=`, without the
`str(...)` cast used elsewhere. -/
def close_opportunity (db : OppDB) (user : Actor) (oid : String) :
    Resp String × OppDB :=
  match findOpportunity db oid with
  | none => (.notFound "Opportunity not found", db)
  | some o =>
    if !(pyEq (.puuid o.faculty_id) (.pstr user.id)) && user.role != "ADMIN" then
      (.forbidden "Not authorized to close this opportunity", db)
    else
      let os := db.opportunities.map
        (fun x => if x.id == o.id then { x with is_open := false } else x)
      (.ok "Opportunity closed successfully", { db with opportunities := os })

/-- The `apply_to_opportunity` handler: STUDENT only, then existence, the
open flag, the deadline check, the duplicate-application check (in SQL,
where the bound actor id matches canonically), then the insert.  `today`
is `date.today()` and `newId` the database-generated id of the new row.
The deadline check `opportunity.deadline < date.today()` compares the
loaded `datetime.datetime` (the column is `DateTime`) with a plain
`datetime.date`, which raises `TypeError` in Python — an exception no
handler catches, surfacing as HTTP 500 (`serverError`).  The `some`
branches of the comparison translate the source's past-deadline raise
and fall-through lines, but they are unreachable at this call site. -/
def apply_to_opportunity (db : OppDB) (user : Actor) (oid : String)
    (cover : String) (today : Int) (newId : String) :
    Resp Application × OppDB :=
  if user.role != "STUDENT" then
    (.forbidden "Only students can apply to opportunities", db)
  else
    match findOpportunity db oid with
    | none => (.notFound "Opportunity not found", db)
    | some o =>
      if !o.is_open then
        (.badRequest "This opportunity is closed", db)
      else
        match pyLt? (.pdatetime o.deadline) (.pdate today) with
        | none => (.serverError, db)
        | some true => (.badRequest "Application deadline has passed", db)
        | some false =>
          if (db.applications.find? (fun a =>
              a.opportunity_id == oid && a.student_id == user.id)).isSome then
            (.badRequest "Already applied to this opportunity", db)
          else
            let app : Application :=
              { id := newId, opportunity_id := oid, student_id := user.id,
                status := .SUBMITTED, resume_path := none,
                cover_letter := cover }
            (.ok app, { db with applications := db.applications ++ [app] })

/-! ### Task tracker (`app/api/opportunities.py`, tasks section) -/

/-- The `TaskStatus` enum. -/
inductive TaskStatus where
  | PENDING
  | IN_PROGRESS
  | COMPLETED
deriving DecidableEq, Repr

/-- The `TaskStatus(s)` enum constructor. -/
def TaskStatus.fromValue? (s : String) : Option TaskStatus :=
  if s == "PENDING" then some .PENDING
  else if s == "IN_PROGRESS" then some .IN_PROGRESS
  else if s == "COMPLETED" then some .COMPLETED
  else none

/-- A row of the `tasks` table. -/
structure Task where
  id : String
  student_id : String
  title : String
  description : String
  category : String
  deadline : Option Int
  status : TaskStatus
  progress : Int
deriving DecidableEq, Repr

/-- The slice of the store the task handlers touch. -/
structure TaskDB where
  tasks : List Task
deriving DecidableEq, Repr

/-- A raw `POST /opportunities/my/tasks` JSON body: the client may send a
`progress` member, but the `TaskCreate` pydantic schema has no such field,
so parsing drops it. -/
structure RawTaskCreate where
  title : String
  description : String
  category : String
  deadline : Option Int
  progress : Option Int
deriving DecidableEq, Repr

/-- The `TaskCreate` request body (`title`, `description`, `category`,
optional `deadline` — and nothing else). -/
structure TaskCreate where
  title : String
  description : String
  category : String
  deadline : Option Int
deriving DecidableEq, Repr

/-- Pydantic parsing of the raw body into `TaskCreate`: unknown members
such as `progress` are ignored. -/
def parseTaskCreate (r : RawTaskCreate) : TaskCreate :=
  { title := r.title, description := r.description,
    category := r.category, deadline := r.deadline }

/-- The `TaskUpdate` request body. -/
structure TaskUpdate where
  title : Option String
  description : Option String
  status : Option String
  progress : Option Int
deriving DecidableEq, Repr

/-- The `create_task` handler: the new row always gets `status=PENDING`
and `progress=0`; `tid` is the database-generated id. -/
def create_task (db : TaskDB) (user : Actor) (d : TaskCreate) (tid : String) :
    Resp Task × TaskDB :=
  let t : Task :=
    { id := tid, student_id := user.id, title := d.title,
      description := d.description, category := d.category,
      deadline := d.deadline, status := .PENDING, progress := 0 }
  (.ok t, { db with tasks := db.tasks ++ [t] })

/-- The `update_task` handler: the row is looked up by id and owning
student (in SQL); each present field is applied in source order, with
`progress` clamped by `max(0, min(100, progress))`; an invalid status
string raises before the commit, so the store is unchanged there. -/
def update_task (db : TaskDB) (user : Actor) (tid : String) (d : TaskUpdate) :
    Resp Task × TaskDB :=
  match db.tasks.find? (fun t => t.id == tid && t.student_id == user.id) with
  | none => (.notFound "Task not found", db)
  | some t0 =>
    let t1 := match d.title with
      | some x => { t0 with title := x }
      | none => t0
    let t2 := match d.description with
      | some x => { t1 with description := x }
      | none => t1
    let t3 := match d.progress with
      | some p => { t2 with progress := max 0 (min 100 p) }
      | none => t2
    match d.status with
    | some s =>
      match TaskStatus.fromValue? s with
      | none => (.badRequest "Invalid status", db)
      | some st =>
        let t4 := { t3 with status := st }
        let ts := db.tasks.map
          (fun x => if x.id == tid && x.student_id == user.id then t4 else x)
        (.ok t4, { db with tasks := ts })
    | none =>
      let ts := db.tasks.map
        (fun x => if x.id == tid && x.student_id == user.id then t3 else x)
      (.ok t3, { db with tasks := ts })

/-! ### Academic workflow (`app/api/courses.py`, `app/models/academic.py`) -/

/-- A row of the `courses` table (the fields `enroll_in_course`
consults). -/
structure Course where
  id : String
  code : String
  name : String
  credits : Int
  semester : String
  professor_id : Option String
  department : String
deriving DecidableEq, Repr

/-- A row of the `enrollments` table.  The model declares no unique
constraint on (student, course); the check-then-insert in the handler is
the only enforcement. -/
structure Enrollment where
  id : String
  student_id : String
  course_id : String
  semester : String
  attendance_count : Int
  total_classes : Int
deriving DecidableEq, Repr

/-- The slice of the store the course handlers touch. -/
structure CourseDB where
  courses : List Course
  enrollments : List Enrollment
deriving DecidableEq, Repr

/-- The `enroll_in_course` handler: STUDENT only, course existence, then
the duplicate check `select(Enrollment).where(student_id == actor ∧
course_id == course)` (SQL-level, canonical match) and the insert.  `eid`
is the database-generated id of the new row. -/
def enroll_in_course (db : CourseDB) (user : Actor) (cid : String)
    (eid : String) : Resp String × CourseDB :=
  if user.role != "STUDENT" then
    (.forbidden "Only students can enroll in courses", db)
  else
    match db.courses.find? (fun c => c.id == cid) with
    | none => (.notFound "Course not found", db)
    | some c =>
      if (db.enrollments.find? (fun e =>
          e.student_id == user.id && e.course_id == cid)).isSome then
        (.badRequest "Already enrolled in this course", db)
      else
        let e : Enrollment :=
          { id := eid, student_id := user.id, course_id := cid,
            semester := c.semester, attendance_count := 0, total_classes := 0 }
        (.ok "Successfully enrolled in course",
         { db with enrollments := db.enrollments ++ [e] })

/-- Enrollment rows for one (student, course) pair. -/
def enrollmentsFor (db : CourseDB) (sid cid : String) : List Enrollment :=
  db.enrollments.filter (fun e => e.student_id == sid && e.course_id == cid)

/-! ### Grievance operation sequences

The machinery for the denormalized-status invariant: every completed
grievance-mutating operation is either a `create_grievance` call (its
trace ends in the final committed state) or an `add_grievance_update`
call. -/

/-- One call to a grievance-mutating handler. -/
inductive GOp where
  | createOp (user : Actor) (d : GrievanceCreate) (gid : String)
  | updateOp (user : Actor) (gid : String) (d : GrievanceUpdateCreate)
deriving DecidableEq, Repr

/-- The store after a completed call (an operation that raised before any
commit leaves the store unchanged; `create_grievance` ends in the last of
its committed states). -/
def applyGOp (db : GrievanceDB) : GOp → GrievanceDB
  | .createOp u d gid => (create_grievance db u d gid).2.getLastD db
  | .updateOp u gid d => (add_grievance_update db u gid d).2

/-- Freshness of a database-generated grievance id: the generated UUID
collides with no existing row. -/
def freshGrievanceId (db : GrievanceDB) (gid : String) : Prop :=
  (∀ g ∈ db.grievances, g.id ≠ gid) ∧ (∀ u ∈ db.updates, u.grievance_id ≠ gid)

/-- Stores reachable from a given store by completed grievance
operations, with database-generated ids fresh. -/
inductive ReachG : GrievanceDB → GrievanceDB → Prop where
  | refl (db : GrievanceDB) : ReachG db db
  | createStep (db db' : GrievanceDB) (u : Actor) (d : GrievanceCreate)
      (gid : String) (h : ReachG db db') (hfresh : freshGrievanceId db' gid) :
      ReachG db (applyGOp db' (GOp.createOp u d gid))
  | updateStep (db db' : GrievanceDB) (u : Actor) (gid : String)
      (d : GrievanceUpdateCreate) (h : ReachG db db') :
      ReachG db (applyGOp db' (GOp.updateOp u gid d))

/-- One grievance row agrees with its log: the log is nonempty and its
most recently appended entry carries the row's denormalized status. -/
def statusOk (db : GrievanceDB) (g : Grievance) : Bool :=
  match (updatesFor db g.id).getLast? with
  | some u => u.status == g.status
  | none => false

/-- Executable check of the denormalized-status invariant over the whole
store. -/
def statusInvCheck (db : GrievanceDB) : Bool :=
  db.grievances.all (statusOk db)

/-- The full store invariant: the status/log agreement plus distinctness
of the (database-generated) grievance ids. -/
def gInv (db : GrievanceDB) : Prop :=
  statusInvCheck db = true ∧ (db.grievances.map (fun g => g.id)).Nodup

/-! ### Sample rows used to evaluate the handlers at concrete inputs -/

/-- A sample opportunity row. -/
def oppRow : Opportunity :=
  { id := "7e0d7ba8-0f6e-449d-8ba8-aa4b05f3dcb2"
    faculty_id := "3f0b8a2e-4a2e-4d63-9f0e-2ab8cf6f7a10"
    title := "Research assistant"
    description := "Summer project"
    type := .RESEARCH
    skills := ["python"]
    duration := "2 months"
    stipend := none
    deadline := 20260
    is_open := true }

/-- The FACULTY user who created `oppRow`: the token id is the canonical
text of the stored creator UUID. -/
def oppOwner : Actor :=
  { id := "3f0b8a2e-4a2e-4d63-9f0e-2ab8cf6f7a10", role := "FACULTY" }

/-- A store holding just `oppRow`. -/
def oppStore : OppDB :=
  { opportunities := [oppRow], applications := [] }

/-- The sample opportunity, closed. -/
def closedOppRow : Opportunity :=
  { oppRow with is_open := false }

/-- A store holding just `closedOppRow`. -/
def closedOppStore : OppDB :=
  { opportunities := [closedOppRow], applications := [] }

/-- A raw task-creation body whose client sent `progress = 150`. -/
def rawTask150 : RawTaskCreate :=
  { title := "thesis", description := "write up", category := "general",
    deadline := none, progress := some 150 }

/-- A sample non-anonymous grievance row submitted by user `u-1`. -/
def grievRow : Grievance :=
  { id := "g-1", submitter_id := some "u-1", category := .FOOD,
    priority := .LOW, location := "mess", title := "Food quality",
    description := "stale", status := .SUBMITTED, is_anonymous := false,
    photos := [], assigned_to := none }

/-- A store holding `grievRow` and its initial update. -/
def grievStore : GrievanceDB :=
  { grievances := [grievRow]
    updates := [{ grievance_id := "g-1", updated_by := "u-1",
                  status := .SUBMITTED, remark := "Grievance submitted" }] }

/-- A sample anonymous grievance row (null submitter). -/
def anonGrievRow : Grievance :=
  { grievRow with id := "g-2", submitter_id := none, is_anonymous := true }

/-- A store holding `anonGrievRow` and its initial update. -/
def anonGrievStore : GrievanceDB :=
  { grievances := [anonGrievRow]
    updates := [{ grievance_id := "g-2", updated_by := "u-1",
                  status := .SUBMITTED, remark := "Grievance submitted" }] }

/-- A sample grievance-creation body. -/
def grievBody : GrievanceCreate :=
  { title := "Leaky tap", description := "drips", category := "HOSTEL",
    priority := "MEDIUM", location := "B-12", is_anonymous := false }

/-- A sample course row. -/
def courseRow : Course :=
  { id := "c-1", code := "CS101", name := "Programming", credits := 4,
    semester := "S1", professor_id := some "f-1", department := "CSE" }

/-- A store with the sample course and one enrollment of student `s-1`. -/
def courseStore : CourseDB :=
  { courses := [courseRow]
    enrollments := [{ id := "e-1", student_id := "s-1", course_id := "c-1",
                      semester := "S1", attendance_count := 0,
                      total_classes := 0 }] }

/-- A sample registration body for a student address. -/
def regBody : UserCreate :=
  { email := "student1@students.iitmandi.ac.in",
    password := "password123", role := "STUDENT" }

/-! ## Theorems -/

/-- C2: evaluation of the close-opportunity handler at the failing input.
The FACULTY user whose token id is exactly the canonical text of the
stored `faculty_id` is denied with Forbidden, because the handler
compares the loaded `uuid.UUID` against the token string with Python
`!=`, which never holds between the two types; an ADMIN still succeeds,
so closing is in fact possible only for ADMIN, contradicting both the
claim and the handler's own comment that the creator may close. -/
theorem close_opportunity_owner_denied_eval :
    close_opportunity oppStore oppOwner "7e0d7ba8-0f6e-449d-8ba8-aa4b05f3dcb2" =
      (.forbidden "Not authorized to close this opportunity", oppStore)
    ∧ oppOwner.id = oppRow.faculty_id
    ∧ oppOwner.role = "FACULTY"
    ∧ oppRow.is_open = true
    ∧ (close_opportunity oppStore { id := "adm-1", role := "ADMIN" }
        "7e0d7ba8-0f6e-449d-8ba8-aa4b05f3dcb2").1.isOk = true := by
  decide

/-- C3: the `serve_file` security check is purely lexical, so the request
path `../secret.txt` passes it — `UPLOAD_DIR / "../secret.txt"` keeps the
upload root's components as a prefix — yet the location the operating
system resolves it to lies outside the upload root.  (An absolute request
path is rejected, so the check is reachable and not vacuous.) -/
theorem serve_file_traversal_eval :
    serve_file "../secret.txt" = .served (UPLOAD_DIR_SEGS ++ ["..", "secret.txt"])
    ∧ escapesUploadRoot (UPLOAD_DIR_SEGS ++ ["..", "secret.txt"]) = true
    ∧ serve_file "/etc/passwd" = .denied := by
  decide

/-- C4 counterexample: a FACULTY actor applying to a closed opportunity
is rejected with Forbidden (the role check runs first), not with the
Validation rejection the claim promises for every actor. -/
theorem apply_nonstudent_forbidden_eval :
    apply_to_opportunity closedOppStore { id := "f-9", role := "FACULTY" }
      "7e0d7ba8-0f6e-449d-8ba8-aa4b05f3dcb2" "cover" 0 "app-1" =
      (.forbidden "Only students can apply to opportunities", closedOppStore)
    ∧ closedOppRow.is_open = false := by
  decide

/-- C4 (amended): for an existing opportunity, an actor of any role
other than STUDENT is always rejected with Forbidden, whatever the
opportunity's state; a STUDENT actor is rejected with the
closed-opportunity Validation error when `is_open` is false (that check
runs before the deadline one); and when the opportunity is open, the
deadline comparison of the loaded `datetime` with `date.today()` raises
an uncaught `TypeError` (HTTP 500) regardless of the deadline and the
current date — so the past-deadline Validation rejection is unreachable
and apply never succeeds on an open opportunity. -/
theorem apply_closed_or_expired (db : OppDB) (a : Actor) (oid : String)
    (o : Opportunity) (cover : String) (today : Int) (newId : String)
    (hfind : findOpportunity db oid = some o) :
    (a.role ≠ "STUDENT" →
      apply_to_opportunity db a oid cover today newId =
        (.forbidden "Only students can apply to opportunities", db))
    ∧ (a.role = "STUDENT" → o.is_open = false →
      apply_to_opportunity db a oid cover today newId =
        (.badRequest "This opportunity is closed", db))
    ∧ (a.role = "STUDENT" → o.is_open = true →
      apply_to_opportunity db a oid cover today newId =
        (.serverError, db)) := by
  refine ⟨fun h => ?_, fun h ho => ?_, fun h ho => ?_⟩
  · simp only [apply_to_opportunity]
    rw [if_pos (by simpa [bne_iff_ne] using h)]
  · simp [apply_to_opportunity, h, hfind, ho]
  · simp [apply_to_opportunity, h, hfind, ho, pyLt?]

/-- C4 witness: the amended theorem applied to concrete students — the
closed sample opportunity yields the Validation rejection, and the open
sample opportunity yields the internal error even though `today` (20270)
is past its deadline (20260). -/
theorem apply_closed_or_expired_witness :
    apply_to_opportunity closedOppStore { id := "s-7", role := "STUDENT" }
      "7e0d7ba8-0f6e-449d-8ba8-aa4b05f3dcb2" "cover" 20270 "app-1" =
      (.badRequest "This opportunity is closed", closedOppStore)
    ∧ apply_to_opportunity oppStore { id := "s-7", role := "STUDENT" }
      "7e0d7ba8-0f6e-449d-8ba8-aa4b05f3dcb2" "cover" 20270 "app-1" =
      (.serverError, oppStore) :=
  ⟨(apply_closed_or_expired closedOppStore { id := "s-7", role := "STUDENT" }
      "7e0d7ba8-0f6e-449d-8ba8-aa4b05f3dcb2" closedOppRow "cover" 20270
      "app-1" (by decide)).2.1 rfl (by decide),
   (apply_closed_or_expired oppStore { id := "s-7", role := "STUDENT" }
      "7e0d7ba8-0f6e-449d-8ba8-aa4b05f3dcb2" oppRow "cover" 20270
      "app-1" (by decide)).2.2 rfl (by decide)⟩

/-- C5 counterexample: a creation request carrying `progress = 150`
stores a task with `progress = 0`, not `100` — the `TaskCreate` schema
has no progress field, so the requested value is dropped and the handler
writes the constant `0`. -/
theorem create_task_drops_progress_eval :
    rawTask150.progress = some 150
    ∧ (create_task { tasks := [] } { id := "s-1", role := "STUDENT" }
        (parseTaskCreate rawTask150) "t-1").1 =
      .ok { id := "t-1", student_id := "s-1", title := "thesis",
            description := "write up", category := "general",
            deadline := none, status := .PENDING, progress := 0 }
    ∧ (0 : Int) ≠ 100 := by
  decide

/-- C5 (amended): task creation ignores any client-supplied progress and
always stores `progress = 0`; the update operation clamps a requested
progress `p` to `max 0 (min 100 p)`, which maps `150` to `100` and `-5`
to `0`. -/
theorem task_progress_writes (db : TaskDB) (a : Actor) (r : RawTaskCreate)
    (tid : String) (db2 : TaskDB) (a2 : Actor) (tid2 : String)
    (d : TaskUpdate) (t0 : Task) (p : Int)
    (hfind : db2.tasks.find? (fun t => t.id == tid2 && t.student_id == a2.id) =
      some t0)
    (hp : d.progress = some p) (hs : d.status = none) :
    (∃ t, (create_task db a (parseTaskCreate r) tid).1 = .ok t ∧ t.progress = 0)
    ∧ (∃ t, (update_task db2 a2 tid2 d).1 = .ok t ∧
        t.progress = max 0 (min 100 p))
    ∧ max 0 (min 100 (150 : Int)) = 100
    ∧ max 0 (min 100 (-5 : Int)) = 0 := by
  refine ⟨⟨_, rfl, rfl⟩, ?_, by decide, by decide⟩
  cases ht : d.title <;> cases hd : d.description <;>
    simp [update_task, hfind, hp, hs, ht, hd]

/-- C5 witness: the amended theorem applied to a concrete store and a
concrete update carrying `progress = 150`. -/
theorem task_progress_writes_witness :
    (∃ t, (create_task { tasks := [] } { id := "s-1", role := "STUDENT" }
        (parseTaskCreate rawTask150) "t-1").1 = .ok t ∧ t.progress = 0)
    ∧ (∃ t, (update_task
        { tasks := [{ id := "t-1", student_id := "s-1", title := "thesis",
                      description := "write up", category := "general",
                      deadline := none, status := .PENDING, progress := 0 }] }
        { id := "s-1", role := "STUDENT" } "t-1"
        { title := none, description := none, status := none,
          progress := some 150 }).1 = .ok t ∧
        t.progress = max 0 (min 100 150))
    ∧ max 0 (min 100 (150 : Int)) = 100
    ∧ max 0 (min 100 (-5 : Int)) = 0 :=
  task_progress_writes { tasks := [] } { id := "s-1", role := "STUDENT" }
    rawTask150 "t-1"
    { tasks := [{ id := "t-1", student_id := "s-1", title := "thesis",
                  description := "write up", category := "general",
                  deadline := none, status := .PENDING, progress := 0 }] }
    { id := "s-1", role := "STUDENT" } "t-1"
    { title := none, description := none, status := none,
      progress := some 150 }
    { id := "t-1", student_id := "s-1", title := "thesis",
      description := "write up", category := "general",
      deadline := none, status := .PENDING, progress := 0 }
    150 (by decide) rfl rfl

/-- Helper: no email satisfies both the student and the staff suffix test
(the character before `iitmandi.ac.in` is a dot in one required suffix and
an at-sign in the other). -/
theorem student_staff_suffix_exclusive (e : String) :
    ¬(is_valid_student_email e = true ∧ is_valid_staff_email e = true) := by
  rintro ⟨h1, h2⟩
  simp only [is_valid_student_email, is_valid_staff_email, endswith,
    List.isSuffixOf_iff_suffix] at h1 h2
  rcases List.suffix_or_suffix_of_suffix h1 h2 with h | h
  · exact absurd (List.IsSuffix.length_le h) (by decide)
  · exact absurd h (by decide)

/-- C6: for every enum role R given as the request's role string,
registration succeeds exactly when R is not ADMIN, the email passes the
suffix test required for R, and the email is not already registered;
STUDENT requires the students-domain suffix, every other role the
staff-domain suffix, and the two suffix tests are mutually exclusive. -/
theorem register_role_email_iff (db : AuthDB) (d : UserCreate)
    (uid pwHash : String) (R : UserRole) (hR : d.role = R.value) :
    ((register db d uid pwHash).1.isOk = true ↔
      (R ≠ .ADMIN ∧ validate_email_for_role d.email d.role = true ∧
        db.users.any (fun u => u.email == d.email) = false))
    ∧ (R = .STUDENT →
        validate_email_for_role d.email d.role = is_valid_student_email d.email)
    ∧ (R ≠ .STUDENT →
        validate_email_for_role d.email d.role = is_valid_staff_email d.email)
    ∧ ¬(is_valid_student_email d.email = true ∧
        is_valid_staff_email d.email = true) := by
  refine ⟨?_, fun h => ?_, fun h => ?_, student_staff_suffix_exclusive d.email⟩
  · cases R <;> simp only [UserRole.value] at hR <;>
      cases hv : validate_email_for_role d.email d.role <;>
        cases he : db.users.any (fun u => u.email == d.email) <;>
          rw [hR] at hv <;>
            simp [register, hR, hv, he, UserRole.fromValue?, Resp.isOk]
  · rw [validate_email_for_role, hR, h]
    simp [UserRole.value, is_valid_student_email]
  · cases R with
    | STUDENT => exact absurd rfl h
    | FACULTY => rw [validate_email_for_role, hR]; simp [UserRole.value]
    | AUTHORITY => rw [validate_email_for_role, hR]; simp [UserRole.value]
    | ADMIN => rw [validate_email_for_role, hR]; simp [UserRole.value]

/-- C6 witness: registering a fresh students-domain address as STUDENT
succeeds. -/
theorem register_role_email_iff_witness :
    (register { users := [] } regBody "u-1" "h-1").1.isOk = true :=
  (register_role_email_iff { users := [] } regBody "u-1" "h-1" .STUDENT
      rfl).1.mpr ⟨by decide, by decide, by decide⟩

/-- C9: with at most one enrollment per (student, course) pair in the
store, an enroll call by a student already enrolled in the course fails
with the duplicate-enrollment Conflict rejection (HTTP 400, detail
`Already enrolled in this course`) and leaves the store unchanged; and
any enroll call whatsoever preserves the at-most-one bound. -/
theorem enroll_conflict_and_unique (db : CourseDB) (a : Actor)
    (cid eid : String)
    (hinv : ∀ s c, (enrollmentsFor db s c).length ≤ 1) :
    (a.role = "STUDENT" →
      (db.courses.find? (fun c => c.id == cid)).isSome = true →
      enrollmentsFor db a.id cid ≠ [] →
      enroll_in_course db a cid eid =
        (.badRequest "Already enrolled in this course", db))
    ∧ (∀ s c,
        (enrollmentsFor (enroll_in_course db a cid eid).2 s c).length ≤ 1) := by
  constructor
  · intro hrole hcourse hdup
    rcases Option.isSome_iff_exists.mp hcourse with ⟨c0, hc0⟩
    have hfound : (db.enrollments.find? (fun e =>
        e.student_id == a.id && e.course_id == cid)).isSome = true := by
      rw [List.find?_isSome]
      obtain ⟨e, he⟩ := List.exists_mem_of_ne_nil _ hdup
      have hm := List.mem_filter.mp he
      exact ⟨e, hm.1, hm.2⟩
    simp [enroll_in_course, hrole, hc0, hfound]
  · intro s c
    by_cases hrole : a.role = "STUDENT"
    · cases hc0 : db.courses.find? (fun c => c.id == cid) with
      | none => simpa [enroll_in_course, hrole, hc0] using hinv s c
      | some c0 =>
        cases hfound : (db.enrollments.find? (fun e =>
            e.student_id == a.id && e.course_id == cid)).isSome with
        | true => simpa [enroll_in_course, hrole, hc0, hfound] using hinv s c
        | false =>
          have hnone := Option.not_isSome_iff_eq_none.mp
            (by rw [hfound]; exact Bool.false_ne_true)
          have hall := List.find?_eq_none.mp hnone
          simp only [enroll_in_course, hrole, hc0, hfound]
          simp only [bne_self_eq_false, Bool.not_false, if_neg, ite_false,
            Bool.false_eq_true, enrollmentsFor]
          by_cases hmatch : (a.id == s && (cid == c)) = true
          · have hs : a.id = s := by
              have := (Bool.and_eq_true _ _).mp hmatch
              exact eq_of_beq this.1
            have hc : cid = c := by
              have := (Bool.and_eq_true _ _).mp hmatch
              exact eq_of_beq this.2
            subst hs
            subst hc
            rw [List.filter_append]
            have hold : db.enrollments.filter (fun e =>
                e.student_id == a.id && e.course_id == cid) = [] := by
              exact List.filter_eq_nil_iff.mpr hall
            simp [hold, hmatch]
          · rw [List.filter_append]
            have hfe : List.filter (fun e =>
                e.student_id == s && e.course_id == c)
                [({ id := eid, student_id := a.id, course_id := cid,
                    semester := c0.semester, attendance_count := 0,
                    total_classes := 0 } : Enrollment)] = [] := by
              rw [List.filter_cons, if_neg (by simpa using hmatch),
                List.filter_nil]
            rw [hfe, List.append_nil]
            exact hinv s c
    · simpa [enroll_in_course, hrole] using hinv s c

/-- C9 witness: with the sample store (one enrollment of `s-1` in
`c-1`), a second enroll call by `s-1` yields the Conflict rejection and
leaves the store unchanged. -/
theorem enroll_conflict_and_unique_witness :
    enroll_in_course courseStore { id := "s-1", role := "STUDENT" }
      "c-1" "e-2" = (.badRequest "Already enrolled in this course",
        courseStore) :=
  (enroll_conflict_and_unique courseStore { id := "s-1", role := "STUDENT" }
      "c-1" "e-2"
      (fun _ _ => le_trans (List.length_filter_le _ _) (by decide))).1
    rfl (by decide) (by decide)

/-- C10: for a grievance stored with a null submitter (as every anonymous
grievance is), both photo-upload endpoints deny every actor whose token
id is not the literal string `None` (every real id is a UUID text): the
ownership test compares `str(None)` with the actor id.  The
`/files/...` endpoint rejects a disallowed extension with its Validation
error before the ownership check, so it never succeeds either way and
never changes the store. -/
theorem anonymous_photo_upload_forbidden (db : GrievanceDB) (a : Actor)
    (gid fname newName : String) (size : Nat) (g : Grievance)
    (hfind : findGrievance db gid = some g) (_hanon : g.is_anonymous = true)
    (hsub : g.submitter_id = none) (hid : a.id ≠ "None") :
    Grievances.upload_grievance_photo db a gid fname =
      .forbidden "Not authorized to upload photos for this grievance"
    ∧ (is_allowed_file fname = true →
        Files.upload_grievance_photo db a gid fname size newName =
          (.forbidden "Not authorized to upload photos for this grievance", db))
    ∧ (Files.upload_grievance_photo db a gid fname size newName).1.isOk = false
    ∧ (Files.upload_grievance_photo db a gid fname size newName).2 = db := by
  have hne : (pyStr (pyOfOptId g.submitter_id) != a.id) = true := by
    rw [hsub]
    simp only [pyOfOptId, pyStr, bne_iff_ne, ne_eq]
    exact fun h => hid h.symm
  refine ⟨?_, fun hall => ?_, ?_, ?_⟩
  · simp [Grievances.upload_grievance_photo, hfind, hne]
  · simp [Files.upload_grievance_photo, hall, hfind, hne]
  · cases hall : is_allowed_file fname with
    | true => simp [Files.upload_grievance_photo, hall, hfind, hne, Resp.isOk]
    | false => simp [Files.upload_grievance_photo, hall, Resp.isOk]
  · cases hall : is_allowed_file fname with
    | true => simp [Files.upload_grievance_photo, hall, hfind, hne]
    | false => simp [Files.upload_grievance_photo, hall]

/-- C10 witness: the theorem applied to the sample anonymous grievance, a
concrete actor and an allowed file. -/
theorem anonymous_photo_upload_forbidden_witness :
    Grievances.upload_grievance_photo anonGrievStore
      { id := "u-1", role := "STUDENT" } "g-2" "p.jpg" =
      .forbidden "Not authorized to upload photos for this grievance"
    ∧ (is_allowed_file "p.jpg" = true →
        Files.upload_grievance_photo anonGrievStore
          { id := "u-1", role := "STUDENT" } "g-2" "p.jpg" 5 "nn" =
          (.forbidden "Not authorized to upload photos for this grievance",
            anonGrievStore))
    ∧ (Files.upload_grievance_photo anonGrievStore
        { id := "u-1", role := "STUDENT" } "g-2" "p.jpg" 5 "nn").1.isOk = false
    ∧ (Files.upload_grievance_photo anonGrievStore
        { id := "u-1", role := "STUDENT" } "g-2" "p.jpg" 5 "nn").2 =
        anonGrievStore :=
  anonymous_photo_upload_forbidden anonGrievStore
    { id := "u-1", role := "STUDENT" } "g-2" "p.jpg" "nn" 5 anonGrievRow
    (by decide) (by decide) (by decide) (by decide)

/-- C1 counterexample: a FACULTY actor who is not the submitter reads the
detail of a non-anonymous grievance successfully — `get_grievance` only
applies the ownership-or-anonymity check to STUDENT actors, so FACULTY is
not restricted on detail reads as the claim states. -/
theorem faculty_detail_read_unrestricted_eval :
    get_grievance grievStore { id := "u-2", role := "FACULTY" } "g-1" =
      .ok grievRow
    ∧ grievRow.is_anonymous = false
    ∧ grievRow.submitter_id = some "u-1"
    ∧ ("u-2" : String) ≠ "u-1" := by
  decide

/-- C1 (amended): on the list read, ADMIN and AUTHORITY see every
grievance while STUDENT and FACULTY see exactly their own or anonymous
ones; on the detail read, only STUDENT actors are restricted (own or
anonymous, else Forbidden) — every other role, including FACULTY, reads
any grievance's detail. -/
theorem grievance_read_visibility (db : GrievanceDB) (a : Actor)
    (gid : String) (g : Grievance) (hfind : findGrievance db gid = some g) :
    (∀ g', (a.role = "ADMIN" ∨ a.role = "AUTHORITY") →
      (g' ∈ list_grievances db a none none 0 db.grievances.length ↔
        g' ∈ db.grievances))
    ∧ (∀ g', (a.role = "STUDENT" ∨ a.role = "FACULTY") →
      (g' ∈ list_grievances db a none none 0 db.grievances.length ↔
        (g' ∈ db.grievances ∧
          (g'.submitter_id = some a.id ∨ g'.is_anonymous = true))))
    ∧ (a.role ≠ "STUDENT" → get_grievance db a gid = .ok g)
    ∧ (a.role = "STUDENT" →
        (get_grievance db a gid = .ok g ↔
          (pyStr (pyOfOptId g.submitter_id) = a.id ∨ g.is_anonymous = true))
        ∧ (¬(pyStr (pyOfOptId g.submitter_id) = a.id ∨
              g.is_anonymous = true) →
            get_grievance db a gid =
              .forbidden "Not authorized to view this grievance")) := by
  refine ⟨fun g' hrole => ?_, fun g' hrole => ?_, fun h => ?_, fun h => ?_⟩
  · rcases hrole with h | h <;> simp [list_grievances, h]
  · rcases hrole with h | h <;>
      · simp [list_grievances, h]
        rw [List.take_of_length_le (List.length_filter_le _ _),
          List.mem_filter]
        cases hsub : g'.submitter_id <;> simp [hsub]
  · simp [get_grievance, hfind, beq_eq_false_iff_ne.mpr h]
  · constructor
    · by_cases hio : pyStr (pyOfOptId g.submitter_id) = a.id
      · simp [get_grievance, hfind, h, hio]
      · by_cases han : g.is_anonymous = true
        · simp [get_grievance, hfind, h, hio, han]
        · simp [get_grievance, hfind, h, han,
            beq_eq_false_iff_ne.mpr hio, Bool.not_eq_true]
          exact hio
    · intro hno
      push_neg at hno
      simp [get_grievance, hfind, h, beq_eq_false_iff_ne.mpr hno.1,
        Bool.not_eq_true, hno.2]

/-- C1 witness: the amended theorem applied to the sample store — the
FACULTY non-submitter reads the detail of the non-anonymous grievance. -/
theorem grievance_read_visibility_witness :
    get_grievance grievStore { id := "u-2", role := "FACULTY" } "g-1" =
      .ok grievRow :=
  (grievance_read_visibility grievStore { id := "u-2", role := "FACULTY" }
      "g-1" grievRow (by decide)).2.2.1 (by decide)

/-- C8 counterexample: grievance creation commits twice, and the first
committed — hence observable — store contains the new grievance row with
no update rows at all, contradicting the single-transaction claim. -/
theorem grievance_create_intermediate_eval :
    ((create_grievance { grievances := [], updates := [] }
        { id := "u-1", role := "STUDENT" } grievBody "g-9").2.headD
      { grievances := [], updates := [] }).grievances ≠ []
    ∧ ((create_grievance { grievances := [], updates := [] }
        { id := "u-1", role := "STUDENT" } grievBody "g-9").2.headD
      { grievances := [], updates := [] }).updates = []
    ∧ (create_grievance { grievances := [], updates := [] }
        { id := "u-1", role := "STUDENT" } grievBody "g-9").2.length = 2 := by
  decide

/-- C8 (amended): on valid input, grievance creation produces exactly two
committed states: the first adds only the grievance row (its update log
is empty there when the generated id is fresh), the second additionally
appends the initial SUBMITTED update with remark `Grievance submitted`;
after the second commit both rows persist. -/
theorem grievance_create_commits_twice (db : GrievanceDB) (a : Actor)
    (d : GrievanceCreate) (gid : String) (c : GrievanceCategory)
    (p : Priority) (hc : GrievanceCategory.fromValue? d.category = some c)
    (hp : Priority.fromValue? d.priority = some p)
    (hfresh : ∀ u ∈ db.updates, u.grievance_id ≠ gid) :
    ∃ g1 : Grievance, g1.id = gid ∧ g1.status = .SUBMITTED ∧
      (create_grievance db a d gid).2 =
        [{ db with grievances := db.grievances ++ [g1] },
         { db with grievances := db.grievances ++ [g1]
                   updates := db.updates ++
                     [{ grievance_id := gid, updated_by := a.id,
                        status := .SUBMITTED,
                        remark := "Grievance submitted" }] }]
      ∧ updatesFor { db with grievances := db.grievances ++ [g1] } gid = []
      ∧ updatesFor ((create_grievance db a d gid).2.getLastD db) gid ≠ [] := by
  refine ⟨{ id := gid
            submitter_id := if d.is_anonymous then none else some a.id
            category := c, priority := p, location := d.location
            title := d.title, description := d.description
            status := .SUBMITTED, is_anonymous := d.is_anonymous
            photos := [], assigned_to := none }, rfl, rfl, ?_, ?_, ?_⟩
  · simp [create_grievance, hc, hp]
  · exact List.filter_eq_nil_iff.mpr
      (fun u hu => by simpa using hfresh u hu)
  · simp only [create_grievance, hc, hp, List.getLastD_concat]
    intro hcon
    have := List.filter_eq_nil_iff.mp hcon
      { grievance_id := gid, updated_by := a.id,
        status := .SUBMITTED, remark := "Grievance submitted" }
      (by simp)
    simp at this

/-- C8 witness: the amended theorem applied to the empty store and the
sample creation body. -/
theorem grievance_create_commits_twice_witness :
    ∃ g1 : Grievance, g1.id = "g-9" ∧ g1.status = .SUBMITTED ∧
      (create_grievance { grievances := [], updates := [] }
          { id := "u-1", role := "STUDENT" } grievBody "g-9").2 =
        [{ grievances := [g1], updates := [] },
         { grievances := [g1]
           updates := [{ grievance_id := "g-9", updated_by := "u-1",
                         status := .SUBMITTED,
                         remark := "Grievance submitted" }] }]
      ∧ updatesFor { grievances := [g1], updates := [] } "g-9" = []
      ∧ updatesFor ((create_grievance { grievances := [], updates := [] }
          { id := "u-1", role := "STUDENT" } grievBody "g-9").2.getLastD
            { grievances := [], updates := [] }) "g-9" ≠ [] :=
  grievance_create_commits_twice { grievances := [], updates := [] }
    { id := "u-1", role := "STUDENT" } grievBody "g-9" .HOSTEL .MEDIUM
    (by decide) (by decide) (by decide)

/-- Helper: appending one update row with a different grievance id leaves
a row's status/log agreement untouched (the grievances column of the
store is irrelevant to it). -/
theorem statusOk_append_update_ne (gs gs' : List Grievance)
    (us : List GrievanceUpdate) (u0 : GrievanceUpdate) (g0 : Grievance)
    (hne : u0.grievance_id ≠ g0.id) :
    statusOk { grievances := gs', updates := us ++ [u0] } g0 =
      statusOk { grievances := gs, updates := us } g0 := by
  unfold statusOk updatesFor
  rw [List.filter_append, List.filter_cons]
  simp [beq_eq_false_iff_ne.mpr hne]

/-- Helper: a row whose id and status match the update row just appended
satisfies the status/log agreement. -/
theorem statusOk_append_update_eq (gs' : List Grievance)
    (us : List GrievanceUpdate) (u0 : GrievanceUpdate) (g0 : Grievance)
    (heq : u0.grievance_id = g0.id) (hst : u0.status = g0.status) :
    statusOk { grievances := gs', updates := us ++ [u0] } g0 = true := by
  unfold statusOk updatesFor
  rw [List.filter_append, List.filter_cons]
  simp [heq, hst, List.getLast?_concat]

/-- Helper: the final committed store of a successful grievance
creation. -/
theorem create_grievance_final (db : GrievanceDB) (a : Actor)
    (d : GrievanceCreate) (gid : String) (c : GrievanceCategory)
    (p : Priority) (hc : GrievanceCategory.fromValue? d.category = some c)
    (hp : Priority.fromValue? d.priority = some p) :
    (create_grievance db a d gid).2.getLastD db =
      { grievances := db.grievances ++
          [{ id := gid
             submitter_id := if d.is_anonymous then none else some a.id
             category := c, priority := p, location := d.location
             title := d.title, description := d.description
             status := .SUBMITTED, is_anonymous := d.is_anonymous
             photos := [], assigned_to := none }]
        updates := db.updates ++
          [{ grievance_id := gid, updated_by := a.id, status := .SUBMITTED,
             remark := "Grievance submitted" }] } := by
  simp [create_grievance, hc, hp]

/-- Helper: the committed store of a successful status update. -/
theorem add_update_success_shape (db : GrievanceDB) (u : Actor)
    (gid : String) (d : GrievanceUpdateCreate) (g : Grievance)
    (s : GrievanceStatus)
    (hrole : (u.role == "AUTHORITY" || u.role == "ADMIN") = true)
    (hfg : findGrievance db gid = some g)
    (hst : GrievanceStatus.fromValue? d.status = some s) :
    (add_grievance_update db u gid d).2 =
      { grievances := db.grievances.map (fun x => if x.id == g.id then
          { g with status := s
                   assigned_to := match g.assigned_to with
                     | none => some u.id
                     | some y => some y } else x)
        updates := db.updates ++
          [{ grievance_id := g.id, updated_by := u.id, status := s,
             remark := d.remark }] } := by
  simp [add_grievance_update, hrole, hfg, hst]

/-- C7: the denormalized-status invariant — every grievance row's status
equals the status of the most recently appended entry of its update log,
and grievance ids stay distinct — holds after every completed grievance
operation reachable from a store satisfying it (creation establishes it
for the new row via the synthesized initial update; every status-update
append re-establishes it for the touched row and preserves it
elsewhere). -/
theorem grievance_status_matches_log (db db' : GrievanceDB)
    (h0 : gInv db) (h : ReachG db db') : gInv db' := by
  induction h with
  | refl => exact h0
  | createStep dbB u d gid hAB hfresh ihAB =>
    obtain ⟨ih1, ih2⟩ := ihAB
    simp only [applyGOp]
    cases hc : GrievanceCategory.fromValue? d.category with
    | none => simpa [create_grievance, hc] using And.intro ih1 ih2
    | some c =>
      cases hp : Priority.fromValue? d.priority with
      | none => simpa [create_grievance, hc, hp] using And.intro ih1 ih2
      | some p =>
        rw [create_grievance_final dbB u d gid c p hc hp]
        constructor
        · rw [statusInvCheck, List.all_eq_true]
          intro g0 hg0
          rcases List.mem_append.mp hg0 with hin | hin
          · rw [statusOk_append_update_ne dbB.grievances _ _ _ _
              (fun e => hfresh.1 g0 hin e.symm)]
            exact List.all_eq_true.mp ih1 g0 hin
          · rw [List.mem_singleton] at hin
            subst hin
            exact statusOk_append_update_eq _ _ _ _ rfl rfl
        · rw [List.map_append]
          refine List.nodup_append.mpr ⟨ih2, List.nodup_singleton _, ?_⟩
          intro x hx hx'
          simp only [List.map_cons, List.map_nil, List.mem_singleton] at hx'
          rcases List.mem_map.mp hx with ⟨g0, hg0, rfl⟩
          exact hfresh.1 g0 hg0 hx'
  | updateStep dbB u gid d hAB ihAB =>
    obtain ⟨ih1, ih2⟩ := ihAB
    simp only [applyGOp]
    cases hrole : (u.role == "AUTHORITY" || u.role == "ADMIN") with
    | false => simpa [add_grievance_update, hrole] using And.intro ih1 ih2
    | true =>
      cases hfg : findGrievance dbB gid with
      | none => simpa [add_grievance_update, hrole, hfg] using
          And.intro ih1 ih2
      | some g =>
        cases hst : GrievanceStatus.fromValue? d.status with
        | none => simpa [add_grievance_update, hrole, hfg, hst] using
            And.intro ih1 ih2
        | some s =>
          rw [add_update_success_shape dbB u gid d g s hrole hfg hst]
          have hginj := List.inj_on_of_nodup_map ih2
          constructor
          · rw [statusInvCheck, List.all_eq_true]
            intro g0' hg0'
            rcases List.mem_map.mp hg0' with ⟨g0, hg0, rfl⟩
            by_cases hid : (g0.id == g.id) = true
            · have hg0g : g0 = g :=
                hginj hg0 (List.mem_of_find?_eq_some hfg) (eq_of_beq hid)
              subst hg0g
              rw [if_pos hid]
              exact statusOk_append_update_eq _ _ _ _ rfl rfl
            · rw [if_neg hid]
              have hne : g.id ≠ g0.id := by
                intro e
                exact hid (beq_iff_eq.mpr e.symm)
              rw [statusOk_append_update_ne dbB.grievances _ _ _ _ hne]
              exact List.all_eq_true.mp ih1 g0 hg0
          · rw [List.map_map]
            rw [List.map_congr_left (g := fun x : Grievance => x.id)
              (fun x hx => ?_)]
            · exact ih2
            · by_cases hid : (x.id == g.id) = true
              · simp only [Function.comp_apply, if_pos hid]
                exact (eq_of_beq hid).symm
              · simp only [Function.comp_apply, if_neg hid]

/-- C7 witness: the invariant holds in the store obtained from the empty
one by a creation followed by a status update. -/
theorem grievance_status_matches_log_witness :
    gInv (applyGOp
      (applyGOp { grievances := [], updates := [] }
        (GOp.createOp { id := "u-1", role := "STUDENT" } grievBody "g-9"))
      (GOp.updateOp { id := "a-1", role := "AUTHORITY" } "g-9"
        { status := "RESOLVED", remark := "done" })) :=
  grievance_status_matches_log { grievances := [], updates := [] } _
    ⟨rfl, List.nodup_nil⟩
    (ReachG.updateStep _ _ _ _ _
      (ReachG.createStep _ _ _ _ _
        (ReachG.refl { grievances := [], updates := [] })
        ⟨fun g hg => absurd hg (List.not_mem_nil g),
         fun u hu => absurd hu (List.not_mem_nil u)⟩))

end Aegis
